import Mathlib

/-!
Shallow embedding of `serious_django_services/__init__.py`
(repository `serioeseGmbH/serious-django-services`).

The Python module defines:
  * `ServiceMetaclass.__new__` — definition-time validation of Service
    subclasses (name suffix, `service_exceptions` shape) and computation of
    the `exceptions` attribute;
  * `Service.require_signed_in` / `Service.require_permissions` — guard
    checks over an external user/permission provider;
  * `CRUDMixinMetaclass.check_required_config_params` — definition-time
    validation of the CRUD configuration attributes;
  * `CRUDMixin._create/_retrieve/_update/_delete` — CRUD delegation to an
    external store (`cls.model.objects`) and external form classes.

External collaborators (the Django user model, `has_perm`, the ORM `get`,
and the form classes) are modelled as explicit parameters of the embedded
operations, so every theorem states exactly what the repository code
guarantees for a given collaborator behaviour.

A single quote character, used to build the exact Python message strings.
-/

def squote : String := (Char.ofNat 39).toString

/-! ## Values appearing as elements of `service_exceptions`

`ServiceMetaclass.__new__` checks `type(c) is type and issubclass(c, Exception)`
for each element `c`.  An element is therefore either a plain class deriving
from `Exception` (identified by its class name), a class not deriving from
`Exception`, or a non-class value. -/

inductive PyElem : Type
  | excClass (name : String)    -- a class with `issubclass(c, Exception)`
  | otherClass (name : String)  -- a class, but not an Exception subclass
  | nonClass                    -- not a class at all
  deriving DecidableEq, Repr

/-- `type(c) is type and issubclass(c, Exception)` for one element. -/
def PyElem.isExcClass : PyElem → Bool
  | .excClass _ => true
  | _ => false

/-- The possible states of the `service_exceptions` class attribute:
absent from the class and all its bases (so `getattr(cls, 'service_exceptions')`
raises `AttributeError`), explicitly `None`, a tuple of values, or a
non-tuple value. -/
inductive SvcExcAttr : Type
  | missing
  | noneVal
  | tupleVal (elems : List PyElem)
  | nonTuple
  deriving DecidableEq, Repr

/-- The errors a class definition can raise in this module. -/
inductive DefError : Type
  | improperlyConfigured (msg : String)
  | attributeError (attr : String)
  deriving DecidableEq, Repr

/-- The relevant declared attributes of a new Service subclass, as seen by
`ServiceMetaclass.__new__`.  `isAbstractRoot` models `cls.__base__ == ABC`. -/
structure ClassDef : Type where
  name : String
  isAbstractRoot : Bool
  service_exceptions : SvcExcAttr
  deriving DecidableEq, Repr

/-- `Service.base_exceptions = (PermissionDenied,)`, inherited by every
subclass (none of them overrides it). -/
def base_exceptions : List PyElem := [PyElem.excClass "PermissionDenied"]

/-- Message of the `ImproperlyConfigured` raised on a bad class name:
`"A Service subclass's name must end with 'Service'."` -/
def nameErrMsg : String :=
  "A Service subclass" ++ squote ++ "s name must end with " ++ squote ++
    "Service" ++ squote ++ "."

/-- Message of the `ImproperlyConfigured` raised on a bad `service_exceptions`. -/
def svcExcErrMsg : String :=
  "Defined a service without an `service_exceptions` property. " ++
    "Define a `service_exceptions` property which should be a tuple " ++
    "of subclasses of Exception, and enumerates all service-specific " ++
    "exceptions that a service can throw."

/-- Python `name.endswith(post)`, computed on the character lists. -/
def pyEndsWith (s post : String) : Bool :=
  post.data.isSuffixOf s.data

/-- Python `tuple(x or [])` for a tuple-valued `x`: if `x` is empty (falsy)
the `or` yields `[]`; either way the result equals `x`. -/
def pyTupleOr (xs : List PyElem) : List PyElem :=
  if xs.isEmpty then [] else xs

/-- `ServiceMetaclass.__new__`.  Returns the computed `exceptions` attribute
(`none` when validation was skipped because the class is the abstract root).

```python
cls = super().__new__(mcls, name, *args, **kwargs)
if cls.__base__ == ABC:
    return cls
if not name.endswith('Service'):
    raise ImproperlyConfigured(...)
svc_excs = getattr(cls, 'service_exceptions')   # NB: no default given!
if svc_excs is None or \
   not isinstance(svc_excs, tuple) or \
   not all(type(c) is type and issubclass(c, Exception) for c in svc_excs):
    raise ImproperlyConfigured(...)
cls.exceptions = tuple(cls.service_exceptions or []) + \
    tuple(cls.base_exceptions or [])
return cls
```

Note that `getattr(cls, 'service_exceptions')` is called without a default,
so a class that does not carry the attribute at all raises `AttributeError`
there, before the `svc_excs is None` test can fire. -/
def serviceMetaclassNew (c : ClassDef) : Except DefError (Option (List PyElem)) :=
  if c.isAbstractRoot then
    .ok none
  else if !(pyEndsWith c.name "Service") then
    .error (.improperlyConfigured nameErrMsg)
  else
    match c.service_exceptions with
    | .missing => .error (.attributeError "service_exceptions")
    | .noneVal => .error (.improperlyConfigured svcExcErrMsg)
    | .nonTuple => .error (.improperlyConfigured svcExcErrMsg)
    | .tupleVal elems =>
      if !(elems.all PyElem.isExcClass) then
        .error (.improperlyConfigured svcExcErrMsg)
      else
        .ok (some (pyTupleOr elems ++ pyTupleOr base_exceptions))

/-! ## Guard checks -/

/-- A permission value passed to `require_permissions`: either a Python
string (which is itself iterable: iterating yields its one-character
substrings) or a non-iterable permission object (such as an instance of a
`Permission` class), identified by its `str()` rendering. -/
inductive Perm : Type
  | str (s : String)
  | obj (name : String)
  deriving DecidableEq, Repr

/-- `str(permission)`. -/
def Perm.toStr : Perm → String
  | .str s => s
  | .obj n => n

/-- The `permissions` argument: one permission or a list of permissions. -/
inductive PermArg : Type
  | single (p : Perm)
  | list (ps : List Perm)
  deriving DecidableEq, Repr

/-- `isinstance(permissions, collections.Iterable)`: Python lists and
strings are iterable; a plain permission object is not. -/
def PermArg.isIterable : PermArg → Bool
  | .list _ => true
  | .single (.str _) => true
  | .single (.obj _) => false

/-- `if not isinstance(permissions, collections.Iterable): permissions = [permissions]`
followed by `for permission in permissions`: a non-iterable argument is
wrapped into a one-element list; a string is iterated character by
character (each character being a one-character string); a list is
iterated as given. -/
def PermArg.normalize : PermArg → List Perm
  | .list ps => ps
  | .single (.str s) => s.toList.map fun ch => Perm.str ch.toString
  | .single (.obj n) => [Perm.obj n]

/-- An opaque reference to the optional `obj` argument of `has_perm`. -/
def PyObj : Type := String

/-- The external user: whether it is an instance of `get_user_model()`,
its `is_anonymous` flag, and its `has_perm(permission, obj=...)` capability. -/
structure User : Type where
  isUserModel : Bool
  is_anonymous : Bool
  has_perm : Perm → Option PyObj → Bool

/-- Call-time errors of the guard checks. -/
inductive SvcError : Type
  | permissionDenied (msg : String)
  deriving DecidableEq, Repr

/-- `"You are not logged in."` -/
def notLoggedInMsg : String := "You are not logged in."

/-- `"You do not have permission '{perm}'."` with `perm = str(permission)`. -/
def permErrMsg (p : Perm) : String :=
  "You do not have permission " ++ squote ++ p.toStr ++ squote ++ "."

/-- `Service.require_signed_in`:

```python
if not isinstance(user, get_user_model()) or user.is_anonymous:
    raise PermissionDenied(_("You are not logged in."))
``` -/
def require_signed_in (user : User) : Except SvcError Unit :=
  if !user.isUserModel || user.is_anonymous then
    .error (.permissionDenied notLoggedInMsg)
  else
    .ok ()

/-- The `for permission in permissions` loop of `require_permissions`,
instrumented with the list of permissions actually passed to
`user.has_perm` (one call per loop iteration, in order).  The first
component is the call outcome, the second the `has_perm` call trace. -/
def checkPermsLoop (user : User) (obj : Option PyObj) :
    List Perm → Except SvcError Unit × List Perm
  | [] => (.ok (), [])
  | p :: ps =>
    if user.has_perm p obj then
      let r := checkPermsLoop user obj ps
      (r.1, p :: r.2)
    else
      (.error (.permissionDenied (permErrMsg p)), [p])

/-- `Service.require_permissions`:

```python
cls.require_signed_in(user)
if not isinstance(permissions, collections.Iterable):
    permissions = [permissions]
for permission in permissions:
    if not user.has_perm(permission, obj=obj):
        raise PermissionDenied(_("You do not have permission '{perm}'.")
                               .format(perm=str(permission)))
```

The second component of the result is the instrumentation: the exact
sequence of permissions queried through `user.has_perm`. -/
def require_permissions (user : User) (permissions : PermArg)
    (obj : Option PyObj) : Except SvcError Unit × List Perm :=
  match require_signed_in user with
  | .error e => (.error e, [])
  | .ok () => checkPermsLoop user obj permissions.normalize

/-! ## CRUD mixin: definition-time configuration check -/

/-- The relevant declared attributes of a class using `CRUDMixin`, as seen
by `CRUDMixinMetaclass.__new__`.  The metaclass only asks, with
`getattr(cls, p, None)`, whether each of `model`, `create_form`,
`update_form` resolves to a non-`None` value, so each configuration
attribute is modelled by presence alone. -/
structure CrudClassDef extends ClassDef : Type where
  model : Option Unit
  create_form : Option Unit
  update_form : Option Unit
  deriving DecidableEq, Repr

/-- `required_params = ['model', 'create_form', 'update_form']`. -/
def required_params : List String := ["model", "create_form", "update_form"]

/-- `getattr(cls, config_param, None)` restricted to the three required
configuration parameters. -/
def CrudClassDef.getConfigParam (c : CrudClassDef) : String → Option Unit
  | "model" => c.model
  | "create_form" => c.create_form
  | "update_form" => c.update_form
  | _ => none

/-- The loop body of `check_required_config_params`, iterating over a list
of parameter names in order and raising on the first one whose value is
`None`. -/
def checkConfigParamsLoop (c : CrudClassDef) : List String → Except DefError Unit
  | [] => .ok ()
  | p :: ps =>
    match c.getConfigParam p with
    | none =>
      .error (.improperlyConfigured
        (p ++ " has to be set in the class using the Mixin!"))
    | some _ => checkConfigParamsLoop c ps

/-- `CRUDMixinMetaclass.check_required_config_params`:

```python
required_params = ['model', 'create_form', 'update_form']
for config_param in required_params:
    config_param_value = getattr(cls, config_param, None)
    if config_param_value is None:
        raise ImproperlyConfigured(f'{config_param} has to be set in'
                                   ' the class using the Mixin!')
``` -/
def check_required_config_params (c : CrudClassDef) : Except DefError Unit :=
  checkConfigParamsLoop c required_params

/-- `CRUDMixinMetaclass.__new__`: first the inherited
`ServiceMetaclass.__new__` runs (name and `service_exceptions` checks,
computation of `exceptions`), then, unless the class is the abstract root,
`check_required_config_params` runs on the freshly created class. -/
def crudMetaclassNew (c : CrudClassDef) :
    Except DefError (Option (List PyElem)) :=
  match serviceMetaclassNew c.toClassDef with
  | .error e => .error e
  | .ok excs =>
    if c.isAbstractRoot then
      .ok excs
    else
      match check_required_config_params c with
      | .error e => .error e
      | .ok () => .ok excs

/-! ## CRUD mixin: operations

The persisted entity and the external collaborators.  Field values are
modelled as strings; an entity is its integer primary key together with
its field-to-value mapping (`model_to_dict`). -/

structure Entity : Type where
  id : Int
  fields : List (String × String)
  deriving DecidableEq, Repr

/-- `django.forms.models.model_to_dict(instance)`. -/
def model_to_dict (e : Entity) : List (String × String) := e.fields

/-- The field-level error mapping carried by a `ValidationError` raised
from a bound form (`bound_form.errors`). -/
def FormErrors : Type := List (String × List String)

/-- Call-time errors of the CRUD operations. -/
inductive CrudError : Type
  | validationError (errors : List (String × List String))
  | objectDoesNotExist
  | valueError (msg : String)
  deriving DecidableEq, Repr

/-- The Python class name of each call-time error, used to compare raised
errors against the declared `exceptions` tuple of a service. -/
def CrudError.className : CrudError → String
  | .validationError _ => "ValidationError"
  | .objectDoesNotExist => "ObjectDoesNotExist"
  | .valueError _ => "ValueError"

/-- A Python value passed as the `id` argument of a CRUD operation. -/
inductive PyVal : Type
  | int (n : Int)
  | str (s : String)
  deriving DecidableEq, Repr

/-- `isinstance(id, int)`. -/
def PyVal.isInt : PyVal → Bool
  | .int _ => true
  | .str _ => false

/-- The external store lookup `cls.model.objects.get(id=id)`: it either
returns an entity or raises.  The CRUD operations forward the `id`
argument to it unexamined (except for `_retrieve`, which type-checks the
id first). -/
def StoreGet : Type := PyVal → Except CrudError Entity

/-- The external `create_form` class: binding it to `(data, file_data)`
yields a bound form with an `is_valid()` verdict, an `errors` mapping, and
a `save()` that persists a new entity into the store (modelled as a list
of entities) and returns it. -/
structure CreateForm : Type where
  is_valid : List (String × String) → Option (List (String × String)) → Bool
  errors : List (String × String) → Option (List (String × String)) →
    List (String × List String)
  save : List (String × String) → Option (List (String × String)) →
    List Entity → Entity × List Entity

/-- The external `update_form` class: bound to `(data, files, instance)`. -/
structure UpdateForm : Type where
  is_valid : List (String × String) → List (String × String) → Entity → Bool
  errors : List (String × String) → List (String × String) → Entity →
    List (String × List String)
  save : List (String × String) → List (String × String) → Entity → Entity

/-- Python `dict(base, **override)` for dicts with unique keys: the keys of
`base` keep their order, with values overridden where `override` has the
same key; keys only in `override` are appended in their own order. -/
def dictMerge (base ov : List (String × String)) : List (String × String) :=
  (base.map fun kv =>
    match ov.find? (fun kv2 => kv2.1 == kv.1) with
    | some kv2 => (kv.1, kv2.2)
    | none => kv)
  ++ ov.filter (fun kv2 => base.all fun kv => kv.1 != kv2.1)

/-- `CRUDMixin._create`:

```python
bound_form = cls.create_form(data, file_data)
if bound_form.is_valid():
    return bound_form.save()
else:
    raise ValidationError(bound_form.errors)
```

The store (`db`) is threaded explicitly: the only point at which anything
is persisted is `bound_form.save()`, so the second component of the result
is `db` itself on the validation-error path. -/
def crudCreate (form : CreateForm) (db : List Entity)
    (data : List (String × String))
    (file_data : Option (List (String × String))) :
    Except CrudError Entity × List Entity :=
  if form.is_valid data file_data then
    let r := form.save data file_data db
    (.ok r.1, r.2)
  else
    (.error (.validationError (form.errors data file_data)), db)

/-- `CRUDMixin._retrieve`:

```python
if not isinstance(id, int):
    raise ValueError("id must be int")
return cls.model.objects.get(id=id)
``` -/
def crudRetrieve (get : StoreGet) (id : PyVal) : Except CrudError Entity :=
  if !id.isInt then
    .error (.valueError "id must be int")
  else
    get id

/-- `CRUDMixin._update`:

```python
model_instance_to_be_updated = cls.model.objects.get(id=id)
updated_model_data = dict(model_to_dict(model_instance_to_be_updated),
                          **data)
updated_model_file_data = dict(model_to_dict(model_instance_to_be_updated),
                               **file_data if file_data else {})
bound_form = cls.update_form(updated_model_data,
                             updated_model_file_data,
                             instance=model_instance_to_be_updated)
if bound_form.is_valid():
    return bound_form.save()
else:
    raise ValidationError(bound_form.errors)
```

Note that the `id` argument is forwarded to the store without any type
check, and that `updated_model_file_data` overrides the *original*
`model_to_dict` mapping with `file_data`, not the already-`data`-merged
mapping. -/
def crudUpdate (get : StoreGet) (form : UpdateForm) (id : PyVal)
    (data : List (String × String))
    (file_data : Option (List (String × String))) :
    Except CrudError Entity :=
  match get id with
  | .error e => .error e
  | .ok inst =>
    let updated_model_data := dictMerge (model_to_dict inst) data
    let updated_model_file_data :=
      dictMerge (model_to_dict inst)
        (match file_data with | some fd => fd | none => [])
    if form.is_valid updated_model_data updated_model_file_data inst then
      .ok (form.save updated_model_data updated_model_file_data inst)
    else
      .error
        (.validationError (form.errors updated_model_data
          updated_model_file_data inst))

/-- `CRUDMixin._delete`:

```python
model_instance_to_be_deleted = cls.model.objects.get(id=id)
model_instance_to_be_deleted.delete()
return True
```

Again the `id` is forwarded to the store without any type check. -/
def crudDelete (get : StoreGet) (id : PyVal) : Except CrudError Bool :=
  match get id with
  | .error e => .error e
  | .ok _ => .ok true

/-- The update contract as the specification states it: look up the
existing entity; compute the merged field mapping (current values
overridden by `data`) and, separately, the file mapping (current values
overridden by `file_data`); bind the update form to those mappings and the
existing instance; persist and return when valid, raise a validation
error otherwise. -/
def update_spec (get : StoreGet) (form : UpdateForm) (id : PyVal)
    (data : List (String × String))
    (file_data : Option (List (String × String))) :
    Except CrudError Entity := do
  let inst ← get id
  let merged := dictMerge (model_to_dict inst) data
  let fileMerged := dictMerge (model_to_dict inst) (file_data.getD [])
  if form.is_valid merged fileMerged inst then
    pure (form.save merged fileMerged inst)
  else
    throw (.validationError (form.errors merged fileMerged inst))

/-! ## Helper lemmas -/

/-- `tuple(x or [])` is the identity on tuples. -/
theorem pyTupleOr_eq (xs : List PyElem) : pyTupleOr xs = xs := by
  unfold pyTupleOr
  split
  · simp_all [List.isEmpty_iff]
  · rfl

/-- Behaviour of the instrumented `for permission in permissions` loop:
`has_perm` is called on exactly the passing prefix plus the first failing
permission (if any), and the outcome is determined by the first failing
permission. -/
theorem checkPermsLoop_spec (u : User) (obj : Option PyObj) (ps : List Perm) :
    (checkPermsLoop u obj ps).2 =
      ps.takeWhile (fun p => u.has_perm p obj) ++
        (ps.dropWhile (fun p => u.has_perm p obj)).take 1 ∧
    (checkPermsLoop u obj ps).1 =
      (match ps.dropWhile (fun p => u.has_perm p obj) with
       | [] => .ok ()
       | q :: _ => .error (.permissionDenied (permErrMsg q))) := by
  induction ps with
  | nil => exact ⟨rfl, rfl⟩
  | cons p ps ih =>
    by_cases hp : u.has_perm p obj
    · simpa [checkPermsLoop, hp, List.takeWhile_cons, List.dropWhile_cons]
        using ih
    · simp [checkPermsLoop, hp, List.takeWhile_cons, List.dropWhile_cons]

/-! ## Claims -/

/-- Claim C1.  A service type definition whose `service_exceptions`
attribute is entirely absent (with a well-formed class name) fails with an
`AttributeError` from the default-less `getattr`, not with the
`ImproperlyConfigured` configuration error the claim requires — even
though the code's own `ImproperlyConfigured` message says it covers
defining "a service without an `service_exceptions` property".  The
definition still fails before the type becomes usable, but with the wrong
error class. -/
theorem C1_missing_service_exceptions_attribute_error :
    serviceMetaclassNew
      { name := "FooService", isAbstractRoot := false,
        service_exceptions := .missing }
      = .error (.attributeError "service_exceptions") ∧
    ∀ m : String,
      DefError.attributeError "service_exceptions" ≠
        DefError.improperlyConfigured m := by
  refine ⟨rfl, ?_⟩
  intro m h
  cases h

/-- Claim C2 (counterexample).  A Python string is itself iterable, so a
single string permission is *not* wrapped into a one-element list:
`require_permissions(user, "p1")` iterates over the characters `"p"` and
`"1"`, while `require_permissions(user, ["p1"])` checks `"p1"` itself.
For a signed-in user whose only permission is `"p1"`, the first call
denies permission `"p"` while the second succeeds. -/
theorem C2_string_permission_not_wrapped :
    (require_permissions
        ⟨true, false, fun p _ => p == Perm.str "p1"⟩
        (.single (.str "p1")) none).1
      = .error (.permissionDenied (permErrMsg (.str "p"))) ∧
    (require_permissions
        ⟨true, false, fun p _ => p == Perm.str "p1"⟩
        (.list [.str "p1"]) none).1
      = .ok () ∧
    (Except.error (SvcError.permissionDenied (permErrMsg (.str "p")))
        : Except SvcError Unit) ≠ .ok () := by
  refine ⟨rfl, rfl, ?_⟩
  intro h
  cases h

/-- Claim C2 (amended).  For every user and every *non-iterable*
permission value (a permission object rather than a string), passing the
single value is equivalent to passing the one-element list: the value is
wrapped into a one-element sequence and exactly that one permission is
checked. -/
theorem C2_nonIterable_single_equals_list (u : User) (obj : Option PyObj)
    (n : String) :
    require_permissions u (.single (.obj n)) obj =
      require_permissions u (.list [.obj n]) obj := rfl

/-- Claim C6.  For every non-root service type definition with a
well-formed `service_exceptions` tuple `E` (and a name ending in
"Service"), the computed `exceptions` attribute is exactly `E` followed by
the fixed base set, which contains the permission-denied exception. -/
theorem C6_exceptions_is_concatenation (c : ClassDef) (E : List PyElem)
    (hroot : c.isAbstractRoot = false)
    (hname : pyEndsWith c.name "Service" = true)
    (hattr : c.service_exceptions = .tupleVal E)
    (hwf : E.all PyElem.isExcClass = true) :
    serviceMetaclassNew c = .ok (some (E ++ base_exceptions)) ∧
    PyElem.excClass "PermissionDenied" ∈ base_exceptions := by
  refine ⟨?_, by simp [base_exceptions]⟩
  simp [serviceMetaclassNew, hroot, hname, hattr, hwf, pyTupleOr_eq]

/-- Claim C6 (witness): a concrete service definition with one declared
exception class. -/
theorem C6_exceptions_is_concatenation_witness :
    serviceMetaclassNew
      { name := "FooService", isAbstractRoot := false,
        service_exceptions := .tupleVal [PyElem.excClass "FooError"] }
      = .ok (some ([PyElem.excClass "FooError"] ++ base_exceptions)) ∧
    PyElem.excClass "PermissionDenied" ∈ base_exceptions :=
  C6_exceptions_is_concatenation
    { name := "FooService", isAbstractRoot := false,
      service_exceptions := .tupleVal [PyElem.excClass "FooError"] }
    [PyElem.excClass "FooError"] rfl (by decide) rfl rfl

/-- Claim C7.  For every signed-in user and list of permissions,
`require_permissions` queries `has_perm` for exactly the passing prefix
plus the first failing permission (in list order, never evaluating any
permission after the first failure), raises a permission-denied error
whose message names that first failing permission, and returns normally
(having queried every permission, with no other effect) when all checks
pass. -/
theorem C7_first_failing_permission_short_circuit (u : User)
    (obj : Option PyObj) (ps : List Perm)
    (hsigned : require_signed_in u = .ok ()) :
    (require_permissions u (.list ps) obj).2 =
      ps.takeWhile (fun p => u.has_perm p obj) ++
        (ps.dropWhile (fun p => u.has_perm p obj)).take 1 ∧
    (require_permissions u (.list ps) obj).1 =
      (match ps.dropWhile (fun p => u.has_perm p obj) with
       | [] => .ok ()
       | q :: _ => .error (.permissionDenied (permErrMsg q))) := by
  have h := checkPermsLoop_spec u obj ps
  simpa [require_permissions, hsigned, PermArg.normalize] using h

/-- Claim C7 (witness): a signed-in user holding `"p1"` but not `"p2"`,
checked against `["p1", "p2", "p3"]`: exactly `["p1", "p2"]` are queried
and the error names `"p2"`. -/
theorem C7_first_failing_permission_short_circuit_witness :
    require_signed_in ⟨true, false, fun p _ => p == Perm.obj "p1"⟩ = .ok () ∧
    ((require_permissions ⟨true, false, fun p _ => p == Perm.obj "p1"⟩
        (.list [.obj "p1", .obj "p2", .obj "p3"]) none).2 =
      [Perm.obj "p1", Perm.obj "p2"] ∧
    (require_permissions ⟨true, false, fun p _ => p == Perm.obj "p1"⟩
        (.list [.obj "p1", .obj "p2", .obj "p3"]) none).1 =
      .error (.permissionDenied (permErrMsg (.obj "p2")))) := by
  refine ⟨rfl, ?_⟩
  have h := C7_first_failing_permission_short_circuit
    ⟨true, false, fun p _ => p == Perm.obj "p1"⟩ none
    [.obj "p1", .obj "p2", .obj "p3"] rfl
  simpa using h

/-- Claim C10.  For every signed-in user, calling `require_permissions`
with an empty list of permissions returns normally and never queries the
user's permission capability (the `has_perm` call trace is empty). -/
theorem C10_empty_permissions_vacuous_success (u : User)
    (obj : Option PyObj)
    (hsigned : require_signed_in u = .ok ()) :
    require_permissions u (.list []) obj = (.ok (), []) := by
  simp [require_permissions, hsigned, PermArg.normalize, checkPermsLoop]

/-- Claim C10 (witness): a concrete signed-in user. -/
theorem C10_empty_permissions_vacuous_success_witness :
    require_permissions ⟨true, false, fun _ _ => false⟩ (.list []) none
      = (.ok (), []) :=
  C10_empty_permissions_vacuous_success
    ⟨true, false, fun _ _ => false⟩ none rfl

/-- Claim C3 (counterexample).  `_update` and `_delete` forward the `id`
to the store without any integer check, so a non-integer id that the
store's primary-key coercion resolves — here the string `"3"`, which the
collaborating ORM coerces with `int("3") = 3` — is processed without any
type error: the update succeeds and the delete returns `True`. -/
theorem C3_string_id_update_delete_succeed :
    PyVal.isInt (.str "3") = false ∧
    crudUpdate
      (fun id => match id with
        | .int n => if n == 3 then .ok ⟨3, [("name", "old")]⟩
                    else .error .objectDoesNotExist
        | .str s => if s == "3" then .ok ⟨3, [("name", "old")]⟩
                    else .error (.valueError "invalid literal for int"))
      ⟨fun _ _ _ => true, fun _ _ _ => [], fun d _ e => ⟨e.id, d⟩⟩
      (.str "3") [("name", "new")] none
      = .ok ⟨3, [("name", "new")]⟩ ∧
    crudDelete
      (fun id => match id with
        | .int n => if n == 3 then .ok ⟨3, [("name", "old")]⟩
                    else .error .objectDoesNotExist
        | .str s => if s == "3" then .ok ⟨3, [("name", "old")]⟩
                    else .error (.valueError "invalid literal for int"))
      (.str "3")
      = .ok true := by
  refine ⟨rfl, ?_, rfl⟩
  rfl

/-- Claim C3 (amended).  `_retrieve` fails with `ValueError("id must be
int")` for every non-integer id, before consulting the store; on an
integer id it returns the store's entity when one exists and propagates
the store's not-found error otherwise.  `_update` and `_delete` perform no
integer check of their own: whatever the store resolves is processed. -/
theorem C3_retrieve_type_checked_lookup (get : StoreGet) (id : PyVal) :
    (id.isInt = false →
      crudRetrieve get id = .error (.valueError "id must be int")) ∧
    (∀ e : Entity, id.isInt = true → get id = .ok e →
      crudRetrieve get id = .ok e) ∧
    (id.isInt = true → get id = .error .objectDoesNotExist →
      crudRetrieve get id = .error .objectDoesNotExist) ∧
    (∀ e : Entity, get id = .ok e → crudDelete get id = .ok true) := by
  refine ⟨?_, ?_, ?_, ?_⟩
  · intro h; simp [crudRetrieve, h]
  · intro e h1 h2; simp [crudRetrieve, h1, h2]
  · intro h1 h2; simp [crudRetrieve, h1, h2]
  · intro e h; simp [crudDelete, h]

/-- Claim C3 (witness): `retrieve("abc")` raises the type error for any
store; `delete` passes a non-integer id straight to a store that resolves
it. -/
theorem C3_retrieve_type_checked_lookup_witness :
    crudRetrieve (fun _ => .error .objectDoesNotExist) (.str "abc")
      = .error (.valueError "id must be int") ∧
    crudDelete (fun _ => .ok ⟨1, []⟩) (.str "3") = .ok true :=
  ⟨(C3_retrieve_type_checked_lookup
      (fun _ => .error .objectDoesNotExist) (.str "abc")).1 rfl,
   (C3_retrieve_type_checked_lookup
      (fun _ => .ok ⟨1, []⟩) (.str "3")).2.2.2 ⟨1, []⟩ rfl⟩

/-- Claim C4 (counterexample).  A well-formed service declaring no
service-specific exceptions gets `exceptions = (PermissionDenied,)`, yet
`_create` on an invalid form raises a `ValidationError`, whose class is
not a member of that declared exception set. -/
theorem C4_validation_error_not_in_declared_set :
    serviceMetaclassNew
      { name := "FooService", isAbstractRoot := false,
        service_exceptions := .tupleVal [] }
      = .ok (some [PyElem.excClass "PermissionDenied"]) ∧
    (crudCreate
        ⟨fun _ _ => false,
         fun _ _ => [("name", ["This field is required."])],
         fun _ _ db => (⟨0, []⟩, db)⟩
        [] [] none).1
      = .error (.validationError [("name", ["This field is required."])]) ∧
    PyElem.excClass
        (CrudError.validationError
          [("name", ["This field is required."])]).className
      ∉ [PyElem.excClass "PermissionDenied"] := by
  refine ⟨rfl, rfl, ?_⟩
  decide

/-- Claim C4 (amended).  Of the call-time errors, only the
permission-denied exception is guaranteed to be a member of every
service's computed `exceptions` set; an error class such as
`ValidationError` is a member exactly when the service listed it in its
own `service_exceptions` tuple. -/
theorem C4_only_permission_denied_always_declared (c : ClassDef)
    (E excs : List PyElem)
    (hattr : c.service_exceptions = .tupleVal E)
    (hok : serviceMetaclassNew c = .ok (some excs)) :
    PyElem.excClass "PermissionDenied" ∈ excs ∧
      (PyElem.excClass "ValidationError" ∈ excs ↔
        PyElem.excClass "ValidationError" ∈ E) := by
  unfold serviceMetaclassNew at hok
  split at hok
  · simp at hok
  · split at hok
    · simp at hok
    · rw [hattr] at hok
      simp only at hok
      split at hok
      · simp at hok
      · simp only [pyTupleOr_eq, Except.ok.injEq, Option.some.injEq] at hok
        subst hok
        constructor
        · simp [base_exceptions]
        · simp [base_exceptions]

/-- Claim C4 (amended, witness): a service declaring `ValidationError`
itself. -/
theorem C4_only_permission_denied_always_declared_witness :
    PyElem.excClass "PermissionDenied" ∈
        [PyElem.excClass "ValidationError",
         PyElem.excClass "PermissionDenied"] ∧
      (PyElem.excClass "ValidationError" ∈
          [PyElem.excClass "ValidationError",
           PyElem.excClass "PermissionDenied"] ↔
        PyElem.excClass "ValidationError" ∈
          [PyElem.excClass "ValidationError"]) :=
  C4_only_permission_denied_always_declared
    { name := "FooService", isAbstractRoot := false,
      service_exceptions := .tupleVal [PyElem.excClass "ValidationError"] }
    [PyElem.excClass "ValidationError"]
    [PyElem.excClass "ValidationError", PyElem.excClass "PermissionDenied"]
    rfl rfl

/-- Claim C5.  `_update` behaves exactly as the spec states: it looks up
the existing entity, computes the merged field mapping (current values
overridden by `data`) and, separately, the file mapping as the *original*
current values overridden by `file_data` (not the `data`-merged mapping),
binds the update form to those two mappings and the existing instance,
persists and returns when the form is valid, and raises a validation
error otherwise. -/
theorem C5_update_merge_matches_spec (get : StoreGet) (form : UpdateForm)
    (id : PyVal) (data : List (String × String))
    (file_data : Option (List (String × String))) :
    crudUpdate get form id data file_data =
      update_spec get form id data file_data := by
  unfold crudUpdate update_spec
  cases h : get id with
  | error e => rfl
  | ok inst => cases file_data <;> rfl

/-- Claim C8.  For every class using the CRUD mixin whose service-level
validation succeeds and that leaves at least one of `model`,
`create_form`, `update_form` unset, the definition fails with an
`ImproperlyConfigured` naming the first missing attribute in the fixed
order `model`, `create_form`, `update_form`, with the message
`"<attribute> has to be set in the class using the Mixin!"`. -/
theorem C8_missing_crud_config_first_param_named (c : CrudClassDef)
    (excs : Option (List PyElem))
    (hroot : c.isAbstractRoot = false)
    (hsvc : serviceMetaclassNew c.toClassDef = .ok excs)
    (hmiss : c.model = none ∨ c.create_form = none ∨ c.update_form = none) :
    crudMetaclassNew c = .error (.improperlyConfigured
      ((if c.model = none then "model"
        else if c.create_form = none then "create_form"
        else "update_form")
        ++ " has to be set in the class using the Mixin!")) := by
  cases hm : c.model <;> cases hc : c.create_form <;> cases hu : c.update_form <;>
    simp_all [crudMetaclassNew, check_required_config_params, required_params,
      checkConfigParamsLoop, CrudClassDef.getConfigParam]

/-- Claim C8 (witness): the repository test case `test_missing_create_form`
(model and update_form set, create_form missing). -/
theorem C8_missing_crud_config_first_param_named_witness :
    crudMetaclassNew
      { name := "FooService", isAbstractRoot := false,
        service_exceptions := .tupleVal [],
        model := some (), create_form := none, update_form := some () }
      = .error (.improperlyConfigured
          "create_form has to be set in the class using the Mixin!") := by
  have h := C8_missing_crud_config_first_param_named
    { name := "FooService", isAbstractRoot := false,
      service_exceptions := .tupleVal [],
      model := some (), create_form := none, update_form := some () }
    (some [PyElem.excClass "PermissionDenied"]) rfl rfl
    (Or.inr (Or.inl rfl))
  simpa using h

/-- Claim C9.  `_create` binds the create form to the data; when the form
reports valid it persists through `bound_form.save()` and returns the new
entity, and when it reports invalid it raises a `ValidationError` carrying
the form's field-level error mapping and the store is left exactly as it
was (nothing is persisted). -/
theorem C9_create_validation_no_persistence_on_error (form : CreateForm)
    (db : List Entity) (data : List (String × String))
    (fd : Option (List (String × String))) :
    (form.is_valid data fd = false →
      crudCreate form db data fd =
        (.error (.validationError (form.errors data fd)), db)) ∧
    (form.is_valid data fd = true →
      crudCreate form db data fd =
        (.ok (form.save data fd db).1, (form.save data fd db).2)) := by
  constructor <;> intro h <;> simp [crudCreate, h]

/-- Claim C9 (witness): an always-invalid form leaves the store unchanged
and surfaces its error mapping. -/
theorem C9_create_validation_no_persistence_on_error_witness :
    crudCreate
      ⟨fun _ _ => false, fun _ _ => [("name", ["This field is required."])],
       fun _ _ db => (⟨7, []⟩, db ++ [⟨7, []⟩])⟩
      [⟨1, [("name", "a")]⟩] [("x", "y")] none
      = (.error (.validationError [("name", ["This field is required."])]),
         [⟨1, [("name", "a")]⟩]) :=
  (C9_create_validation_no_persistence_on_error
    ⟨fun _ _ => false, fun _ _ => [("name", ["This field is required."])],
     fun _ _ db => (⟨7, []⟩, db ++ [⟨7, []⟩])⟩
    [⟨1, [("name", "a")]⟩] [("x", "y")] none).1 rfl
